import Mathlib

/-!
Shallow embedding of the content-generation orchestration layer of
SkillFoundry (`src/backend/src/services/llmService.ts`), together with the
schema types it targets (`src/frontend/src/types/index.ts`).

Modelling conventions:
* JavaScript objects become Lean structures with the same field names.
* The HTTP transport (`axios.post`) is a black box: it is passed in as a
  function `post : String → Except JsError LLMResponse` from the rendered
  prompt to either a transport error or a decoded response body.  The fixed
  request metadata (model name, max_tokens 2000, temperature 0.7, bearer
  header) does not influence any control flow in the service and is carried
  inside the black box.
* `JSON.parse` is a JavaScript builtin external to the repository; it is
  passed in as a function `parseJson : String → Option Json` (`none` models
  a thrown `SyntaxError`).  No theorem below depends on which strings parse.
* A generator's JavaScript return value is either the parsed JSON value
  (returned unchanged) or the typed fallback object; the embedding records
  which with `GenResult`.
* `throw new Error(msg)` becomes `Except.error ⟨msg⟩`.
-/

namespace SkillFoundry

/-- A thrown JavaScript `Error`, identified by its message. -/
structure JsError where
  message : String
deriving Repr, DecidableEq

/-- The error constructed at `llmService.ts:53`: `new Error('Failed to generate content')`.
The spec names this failure `GenerationUnavailable`. -/
def failedToGenerate : JsError := ⟨"Failed to generate content"⟩

/-- Shape of `message` inside a chat-completion choice (`llmService.ts:4-10`). -/
structure MessageContent where
  content : String
deriving Repr, DecidableEq

/-- One element of `choices` in the provider reply (`llmService.ts:4-10`). -/
structure Choice where
  message : MessageContent
deriving Repr, DecidableEq

/-- The decoded provider response body `LLMResponse` (`llmService.ts:4-10`). -/
structure LLMResponse where
  choices : List Choice
deriving Repr, DecidableEq

/-- A JSON value, the result of a successful `JSON.parse`.  Numbers are kept
abstract as integers; no theorem below inspects numeric payloads of parsed
values, which are only ever passed through unchanged. -/
inductive Json where
  | null : Json
  | bool (b : Bool) : Json
  | num (n : Int) : Json
  | str (s : String) : Json
  | arr (elems : List Json) : Json
  | obj (fields : List (String × Json)) : Json

/-! ## Schema types (from `src/frontend/src/types/index.ts`) -/

/-- `Subtopic` (types/index.ts:47-52). -/
structure Subtopic where
  id : String
  title : String
  description : String
  estimatedHours : Nat
deriving Repr, DecidableEq

/-- `Topic` (types/index.ts:39-45).  The TypeScript `difficulty` field is the
string union `beginner | intermediate | advanced`; the embedding keeps a plain
string and expresses membership in the union as a predicate below. -/
structure Topic where
  id : String
  title : String
  description : String
  difficulty : String
  subtopics : List Subtopic
deriving Repr, DecidableEq

/-- The `difficulty` union type of `Topic` (types/index.ts:44). -/
def validDifficulty (s : String) : Prop :=
  s = "beginner" ∨ s = "intermediate" ∨ s = "advanced"

instance (s : String) : Decidable (validDifficulty s) := by
  unfold validDifficulty; infer_instance

/-- A `Topic` value inhabits the TypeScript `Topic` interface only when its
`difficulty` string lies in the declared union. -/
def Topic.difficultyOk (t : Topic) : Prop := validDifficulty t.difficulty

/-- `Module` (types/index.ts:31-37). -/
structure Module where
  id : String
  title : String
  description : String
  topics : List Topic
  estimatedWeeks : Nat
deriving Repr, DecidableEq

/-- `WeeklyPlan` (types/index.ts:54-59). -/
structure WeeklyPlan where
  week : Nat
  topics : List String
  estimatedHours : Nat
  goals : List String
deriving Repr, DecidableEq

/-- The object returned by `generateCurriculum` / `getFallbackCurriculum`:
`{ modules, weeklyRoadmap }` (llmService.ts:57, 188-208). -/
structure CurriculumResult where
  modules : List Module
  weeklyRoadmap : List WeeklyPlan
deriving Repr, DecidableEq

/-- The lesson object built by `getFallbackLesson` (llmService.ts:211-219). -/
structure Lesson where
  title : String
  objective : String
  content : String
  examples : List String
  practiceTask : String
deriving Repr, DecidableEq

/-- Quiz `Question` as constructed by `getFallbackQuiz` (llmService.ts:221-229)
and described by the spec data model (id, text, options, correct-answer index,
explanation). -/
structure Question where
  id : String
  text : String
  options : List String
  correctAnswer : Nat
  explanation : String
deriving Repr, DecidableEq

/-- The resource object literal built by `getFallbackResources`
(llmService.ts:231-241).  The literal carries exactly these fields (it is cast
`as any` in the source; the optional `authorOrSource` / `estimatedTime` fields
of the frontend `Resource` interface are absent from it). -/
structure Resource where
  topicId : String
  type : String
  title : String
  level : String
  reason : String
  description : String
  url : String
deriving Repr, DecidableEq

/-- The project object literal built by `getFallbackProjects`
(llmService.ts:243-252). -/
structure Project where
  title : String
  description : String
  requirements : List String
  techStack : List String
  skillsDemonstrated : List String
  difficulty : String
deriving Repr, DecidableEq

/-! ## Gateway configuration (constructor, llmService.ts:17-28) -/

/-- The three environment variables read by the constructor. `none` models an
unset variable. -/
structure Env where
  AI_MODEL_API_URL : Option String
  AI_MODEL_API_KEY : Option String
  AI_MODEL_NAME : Option String
deriving Repr, DecidableEq

/-- JavaScript `process.env.X || d`: an unset variable is `undefined` and the
empty string is falsy, so both fall through to the default. -/
def orDefault (v : Option String) (d : String) : String :=
  match v with
  | none => d
  | some s => if s = "" then d else s

/-- The resolved configuration fields of `LLMService` (llmService.ts:13-20). -/
structure LLMServiceConfig where
  apiUrl : String
  apiKey : String
  modelName : String
deriving Repr, DecidableEq

/-- Constructor field initialisation (llmService.ts:18-20). -/
def mkLLMService (env : Env) : LLMServiceConfig :=
  { apiUrl := orDefault env.AI_MODEL_API_URL "https://openrouter.ai/api/v1/chat/completions"
    apiKey := orDefault env.AI_MODEL_API_KEY ""
    modelName := orDefault env.AI_MODEL_NAME "gpt-3.5-turbo" }

/-- The object passed to `console.log` by the constructor (llmService.ts:22-26):
URL, KEY and MODEL fields of the resolved configuration. -/
structure LogRecord where
  URL : String
  KEY : String
  MODEL : String
deriving Repr, DecidableEq

/-- The diagnostic record emitted at construction (llmService.ts:22-26). -/
def constructorLog (env : Env) : LogRecord :=
  let s := mkLLMService env
  { URL := s.apiUrl, KEY := s.apiKey, MODEL := s.modelName }

/-! ## Gateway call (`callLLM`, llmService.ts:31-55) -/

/-- `callLLM` (llmService.ts:31-55).  Inside the `try`, a rejected HTTP call
throws, and so does reading `choices[0].message.content` when `choices` is
empty (`choices[0]` is `undefined`); either way the `catch` converts the
failure into `new Error('Failed to generate content')`.  Otherwise the
completion text at `choices[0].message.content` is returned. -/
def callLLM (post : String → Except JsError LLMResponse) (prompt : String) :
    Except JsError String :=
  match post prompt with
  | .error _ => .error failedToGenerate
  | .ok r =>
    match r.choices with
    | [] => .error failedToGenerate
    | c :: _ => .ok c.message.content

/-! ## Prompt builders (llmService.ts:58-80, 92-101, 112-121, 132-145, 156-166) -/

/-- Prompt of `generateCurriculum` (llmService.ts:58-80). -/
def curriculumPrompt (skill level : String) (timePerWeek weeks : Nat) : String :=
  "Create a comprehensive " ++ toString weeks ++ "-week curriculum for learning \"" ++ skill ++
  "\" at " ++ level ++ " level with " ++ toString timePerWeek ++ " hours per week.\n\n" ++
  "Return a JSON object with:\n" ++
  "1. \"modules\": Array of modules, each with:\n" ++
  "   - id: unique string\n   - title: module name\n   - description: brief description\n" ++
  "   - estimatedWeeks: number of weeks\n   - topics: array of topics, each with:\n" ++
  "     - id: unique string\n     - title: topic name\n     - description: brief description\n" ++
  "     - difficulty: \"beginner\"|\"intermediate\"|\"advanced\"\n" ++
  "     - subtopics: array with id, title, description, estimatedHours\n\n" ++
  "2. \"weeklyRoadmap\": Array of exactly " ++ toString weeks ++ " weekly plans with:\n" ++
  "   - week: number (1 to " ++ toString weeks ++ ")\n" ++
  "   - topics: array of topic IDs to cover\n" ++
  "   - estimatedHours: total hours for the week\n   - goals: array of learning goals\n\n" ++
  "IMPORTANT: Create exactly " ++ toString weeks ++ " weeks, no more, no less. " ++
  "Distribute all topics across these " ++ toString weeks ++ " weeks.\n" ++
  "Make it practical and progressive. Focus on hands-on learning."

/-- Prompt of `generateLesson` (llmService.ts:92-101). -/
def lessonPrompt (subtopicTitle skill level : String) : String :=
  "Create a lesson for \"" ++ subtopicTitle ++ "\" in " ++ skill ++ " for " ++ level ++
  " level.\n\nReturn JSON with:\n- title: lesson title\n- objective: what student will learn\n" ++
  "- content: detailed explanation (300-500 words)\n" ++
  "- examples: array of 2-3 practical examples\n- practiceTask: hands-on task for the student\n\n" ++
  "Make it engaging and practical."

/-- Prompt of `generateQuiz` (llmService.ts:112-121); `content.substring(0, 500)`
becomes `String.take` (the UTF-16 vs character distinction is immaterial here). -/
def quizPrompt (lessonTitle content : String) : String :=
  "Create 5 multiple choice questions for a lesson titled \"" ++ lessonTitle ++ "\".\n\n" ++
  "Return JSON array of questions, each with:\n- id: unique string\n- text: question text\n" ++
  "- options: array of 4 answer choices\n- correctAnswer: index (0-3) of correct answer\n" ++
  "- explanation: why the answer is correct\n\n" ++
  "Base questions on this content: " ++ content.take 500 ++ "..."

/-- Prompt of `generateResources` (llmService.ts:132-145). -/
def resourcesPrompt (topicTitle skill level : String) : String :=
  "Suggest 8-10 learning resources for \"" ++ topicTitle ++ "\" in " ++ skill ++ " for " ++
  level ++ " level.\n\nReturn JSON array with mix of books, courses, articles, and videos. " ++
  "Each resource:\n- type: \"book\"|\"course\"|\"article\"|\"video\"\n- title: resource title\n" ++
  "- authorOrSource: author or platform name\n" ++
  "- level: \"beginner\"|\"intermediate\"|\"advanced\"\n- estimatedTime: time to complete\n" ++
  "- reason: why recommended (1 sentence)\n- description: brief description\n" ++
  "- url: valid URL or \"#\" if no valid URL available\n\n" ++
  "IMPORTANT: Only provide real, valid URLs. If you don't have a valid URL, use \"#\" instead. " ++
  "Do not use placeholder URLs like example.com.\nInclude both free and paid options."

/-- Prompt of `generateProjects` (llmService.ts:156-166). -/
def projectsPrompt (moduleTitle skill level : String) : String :=
  "Create 2-3 project ideas for \"" ++ moduleTitle ++ "\" in " ++ skill ++ " for " ++ level ++
  " level.\n\nReturn JSON array of projects, each with:\n- title: project name\n" ++
  "- description: what to build (2-3 sentences)\n- requirements: array of key features\n" ++
  "- techStack: array of technologies to use\n" ++
  "- skillsDemonstrated: array of skills this project shows\n" ++
  "- difficulty: \"beginner\"|\"intermediate\"|\"advanced\"\n\n" ++
  "Make projects practical and portfolio-worthy."

/-! ## Fallback synthesizers (llmService.ts:176-252) -/

/-- `getFallbackCurriculum` (llmService.ts:177-209): the `for` loop pushes one
roadmap entry for each `i` from 1 to `weeks`, then the single-module object is
returned. -/
def getFallbackCurriculum (skill level : String) (weeks : Nat := 12) : CurriculumResult :=
  let weeklyRoadmap : List WeeklyPlan := (List.range weeks).map (fun j =>
    { week := j + 1
      topics := ["topic-1"]
      estimatedHours := 5
      goals := ["Week " ++ toString (j + 1) ++ ": Learn " ++ skill ++ " concepts"] })
  { modules := [{
      id := "module-1"
      title := skill ++ " Fundamentals"
      description := "Core concepts and basics of " ++ skill
      estimatedWeeks := weeks
      topics := [{
        id := "topic-1"
        title := "Introduction"
        description := "Getting started with " ++ skill
        difficulty := level
        subtopics := [{
          id := "subtopic-1"
          title := "Overview"
          description := "What is " ++ skill ++ "?"
          estimatedHours := 2 }] }] }]
    weeklyRoadmap := weeklyRoadmap }

/-- `getFallbackLesson` (llmService.ts:211-219). -/
def getFallbackLesson (title : String) : Lesson :=
  { title := title
    objective := "Learn about " ++ title
    content := "This lesson covers the fundamentals of " ++ title ++
      ". You'll learn key concepts and practical applications."
    examples := ["Example 1: Basic " ++ title ++ " usage",
                 "Example 2: Advanced " ++ title ++ " techniques"]
    practiceTask := "Practice implementing " ++ title ++ " concepts" }

/-- `getFallbackQuiz` (llmService.ts:221-229). -/
def getFallbackQuiz (title : String) : List Question :=
  [{ id := "q1"
     text := "What is the main purpose of " ++ title ++ "?"
     options := ["Option A", "Option B", "Option C", "Option D"]
     correctAnswer := 0
     explanation := "This is the correct answer because..." }]

/-- `getFallbackResources` (llmService.ts:231-241). -/
def getFallbackResources (topic : String) : List Resource :=
  [{ topicId := "topic-1"
     type := "article"
     title := topic ++ " Guide"
     level := "beginner"
     reason := "Comprehensive introduction"
     description := "Learn " ++ topic ++ " fundamentals"
     url := "#" }]

/-- `getFallbackProjects` (llmService.ts:243-252).  Note it receives only the
module title; no level parameter exists. -/
def getFallbackProjects (module : String) : List Project :=
  [{ title := module ++ " Project"
     description := "Build a practical project using " ++ module ++ " concepts"
     requirements := ["Feature 1", "Feature 2"]
     techStack := ["Technology 1", "Technology 2"]
     skillsDemonstrated := ["Skill 1", "Skill 2"]
     difficulty := "beginner" }]

/-! ## Generators (llmService.ts:57-174) -/

/-- What a generator returns on success: either the `JSON.parse` result passed
through unchanged, or the domain fallback object. -/
inductive GenResult (α : Type) where
  | parsed (j : Json) : GenResult α
  | fallback (v : α) : GenResult α

/-- `generateCurriculum` (llmService.ts:57-89): build the prompt, await
`callLLM` (whose error propagates uncaught), then `try JSON.parse` and fall
back to `getFallbackCurriculum(skill, level, weeks)` on parse failure. -/
def generateCurriculum (post : String → Except JsError LLMResponse)
    (parseJson : String → Option Json)
    (skill level : String) (timePerWeek : Nat) (weeks : Nat := 12) :
    Except JsError (GenResult CurriculumResult) :=
  match callLLM post (curriculumPrompt skill level timePerWeek weeks) with
  | .error e => .error e
  | .ok response =>
    match parseJson response with
    | some j => .ok (.parsed j)
    | none => .ok (.fallback (getFallbackCurriculum skill level weeks))

/-- `generateLesson` (llmService.ts:91-109). -/
def generateLesson (post : String → Except JsError LLMResponse)
    (parseJson : String → Option Json)
    (subtopicTitle skill level : String) :
    Except JsError (GenResult Lesson) :=
  match callLLM post (lessonPrompt subtopicTitle skill level) with
  | .error e => .error e
  | .ok response =>
    match parseJson response with
    | some j => .ok (.parsed j)
    | none => .ok (.fallback (getFallbackLesson subtopicTitle))

/-- `generateQuiz` (llmService.ts:111-129). -/
def generateQuiz (post : String → Except JsError LLMResponse)
    (parseJson : String → Option Json)
    (lessonTitle content : String) :
    Except JsError (GenResult (List Question)) :=
  match callLLM post (quizPrompt lessonTitle content) with
  | .error e => .error e
  | .ok response =>
    match parseJson response with
    | some j => .ok (.parsed j)
    | none => .ok (.fallback (getFallbackQuiz lessonTitle))

/-- `generateResources` (llmService.ts:131-153). -/
def generateResources (post : String → Except JsError LLMResponse)
    (parseJson : String → Option Json)
    (topicTitle skill level : String) :
    Except JsError (GenResult (List Resource)) :=
  match callLLM post (resourcesPrompt topicTitle skill level) with
  | .error e => .error e
  | .ok response =>
    match parseJson response with
    | some j => .ok (.parsed j)
    | none => .ok (.fallback (getFallbackResources topicTitle))

/-- `generateProjects` (llmService.ts:155-174): on parse failure the fallback
receives only `moduleTitle`. -/
def generateProjects (post : String → Except JsError LLMResponse)
    (parseJson : String → Option Json)
    (moduleTitle skill level : String) :
    Except JsError (GenResult (List Project)) :=
  match callLLM post (projectsPrompt moduleTitle skill level) with
  | .error e => .error e
  | .ok response =>
    match parseJson response with
    | some j => .ok (.parsed j)
    | none => .ok (.fallback (getFallbackProjects moduleTitle))

/-! ## Concrete test doubles used by witnesses -/

/-- A gateway double whose reply always carries the given completion text. -/
def okPost (text : String) : String → Except JsError LLMResponse :=
  fun _ => .ok { choices := [{ message := { content := text } }] }

/-- A gateway double whose underlying HTTP call always errors. -/
def errPost : String → Except JsError LLMResponse :=
  fun _ => .error { message := "network error" }

/-- A parse double on which every string fails to parse. -/
def parseNone : String → Option Json := fun _ => none

/-- A parse double on which every string parses to the given value. -/
def parseConst (j : Json) : String → Option Json := fun _ => some j

/-! ## Claim theorems -/

/-- Claim C1: for every skill, level, and weeks in [1, 52], the curriculum
fallback has exactly one module titled `<skill> Fundamentals` with exactly one
topic and one subtopic, and its weekly roadmap has exactly `weeks` entries with
week numbers 1..weeks in order, each referencing the single topic's id (which
occurs among the module's topic ids) and each carrying the goal string
templated with the week number and skill name. -/
theorem c1_fallback_curriculum_shape (skill level : String) (weeks : Nat)
    (_hlo : 1 ≤ weeks) (_hhi : weeks ≤ 52) :
    ∃ m t st,
      (getFallbackCurriculum skill level weeks).modules = [m] ∧
      m.title = skill ++ " Fundamentals" ∧
      m.topics = [t] ∧
      t.subtopics = [st] ∧
      t.id ∈ m.topics.map Topic.id ∧
      (getFallbackCurriculum skill level weeks).weeklyRoadmap.length = weeks ∧
      ∀ k, k < weeks →
        (getFallbackCurriculum skill level weeks).weeklyRoadmap[k]? =
          some { week := k + 1, topics := [t.id], estimatedHours := 5,
                 goals := ["Week " ++ toString (k + 1) ++ ": Learn " ++ skill ++
                           " concepts"] } := by
  refine ⟨_, _, _, rfl, rfl, rfl, rfl, ?_, ?_, ?_⟩
  · simp [getFallbackCurriculum]
  · simp [getFallbackCurriculum]
  · intro k hk
    simp [getFallbackCurriculum, List.getElem?_map, List.getElem?_range hk]

/-- Witness for C1 at skill "Python", level "beginner", weeks 12. -/
theorem c1_fallback_curriculum_shape_witness :
    ∃ m t st,
      (getFallbackCurriculum "Python" "beginner" 12).modules = [m] ∧
      m.title = "Python" ++ " Fundamentals" ∧
      m.topics = [t] ∧
      t.subtopics = [st] ∧
      t.id ∈ m.topics.map Topic.id ∧
      (getFallbackCurriculum "Python" "beginner" 12).weeklyRoadmap.length = 12 ∧
      ∀ k, k < 12 →
        (getFallbackCurriculum "Python" "beginner" 12).weeklyRoadmap[k]? =
          some { week := k + 1, topics := [t.id], estimatedHours := 5,
                 goals := ["Week " ++ toString (k + 1) ++ ": Learn " ++ "Python" ++
                           " concepts"] } :=
  c1_fallback_curriculum_shape "Python" "beginner" 12 (by decide) (by decide)

/-- Claim C5: the quiz fallback is exactly one question with 4 options and a
correct-answer index in \x7b0,1,2,3\x7d (it is 0). -/
theorem c5_fallback_quiz_shape (lessonTitle : String) :
    ∃ q, getFallbackQuiz lessonTitle = [q] ∧ q.options.length = 4 ∧
      q.correctAnswer = 0 ∧ q.correctAnswer < 4 := by
  refine ⟨_, rfl, rfl, rfl, ?_⟩
  show (0 : Nat) < 4
  decide

/-- Claim C6: the resources fallback is a single article-type resource whose
url is exactly "#", and no resource it produces has an example.com-style
placeholder URL. -/
theorem c6_fallback_resources_shape (topicTitle : String) :
    ∃ r, getFallbackResources topicTitle = [r] ∧ r.type = "article" ∧ r.url = "#" ∧
      ∀ r2 ∈ getFallbackResources topicTitle,
        r2.url = "#" ∧ ¬ "example.com".data <:+: r2.url.data := by
  refine ⟨_, rfl, rfl, rfl, ?_⟩
  intro r2 hr
  simp only [getFallbackResources, List.mem_singleton] at hr
  subst hr
  refine ⟨rfl, ?_⟩
  show ¬ "example.com".data <:+: "#".data
  decide

/-- Claim C9: the curriculum fallback copies the caller's `level` argument
verbatim into the single topic's `difficulty` field, so the result satisfies
the `Topic` difficulty union exactly when `level` is one of
beginner/intermediate/advanced. -/
theorem c9_fallback_difficulty_passthrough (skill level : String) (weeks : Nat) :
    ∃ m t, (getFallbackCurriculum skill level weeks).modules = [m] ∧ m.topics = [t] ∧
      t.difficulty = level ∧ (t.difficultyOk ↔ validDifficulty level) :=
  ⟨_, _, rfl, rfl, rfl, Iff.rfl⟩

/-- Claim C10: the projects fallback is a single project whose difficulty is
always "beginner"; `getFallbackProjects` takes no level argument, and on parse
failure `generateProjects` returns the same fallback for any level. -/
theorem c10_projects_fallback_ignores_level :
    (∀ moduleTitle, ∃ p, getFallbackProjects moduleTitle = [p] ∧
      p.difficulty = "beginner") ∧
    (∀ post parseJson moduleTitle skill l1 l2 r1 r2,
      callLLM post (projectsPrompt moduleTitle skill l1) = .ok r1 →
      parseJson r1 = none →
      callLLM post (projectsPrompt moduleTitle skill l2) = .ok r2 →
      parseJson r2 = none →
      generateProjects post parseJson moduleTitle skill l1 =
        .ok (.fallback (getFallbackProjects moduleTitle)) ∧
      generateProjects post parseJson moduleTitle skill l1 =
        generateProjects post parseJson moduleTitle skill l2) := by
  constructor
  · intro m; exact ⟨_, rfl, rfl⟩
  · intro post parseJson m skill l1 l2 r1 r2 hc1 hp1 hc2 hp2
    have e1 : generateProjects post parseJson m skill l1 =
        .ok (.fallback (getFallbackProjects m)) := by
      simp [generateProjects, hc1, hp1]
    have e2 : generateProjects post parseJson m skill l2 =
        .ok (.fallback (getFallbackProjects m)) := by
      simp [generateProjects, hc2, hp2]
    exact ⟨e1, e1.trans e2.symm⟩

/-- Witness for C10: with a gateway returning non-JSON text, the projects
generator falls back for both "beginner" and "advanced" levels. -/
theorem c10_projects_fallback_ignores_level_witness :
    generateProjects (okPost "not json") parseNone "React Basics" "React" "beginner" =
      .ok (.fallback (getFallbackProjects "React Basics")) :=
  (c10_projects_fallback_ignores_level.2 (okPost "not json") parseNone "React Basics"
    "React" "beginner" "advanced" "not json" "not json" rfl rfl rfl rfl).1

/-- Claim C8 counterexample: two environments differing only in the credential
value produce different diagnostic records, because the constructor logs the
resolved KEY verbatim (llmService.ts:22-26). -/
theorem c8_counterexample_credential_in_log :
    ¬ (constructorLog ⟨some "https://gw.host/v1", some "secret-a", some "gpt-3.5-turbo"⟩ =
       constructorLog ⟨some "https://gw.host/v1", some "secret-b", some "gpt-3.5-turbo"⟩) := by
  decide

/-- Claim C8 (amended): the diagnostic record emitted at construction includes
the credential value: its KEY field is the resolved apiKey, and any two set,
nonempty, distinct credential values with all other environment inputs equal
yield different diagnostic records. -/
theorem c8_amended_credential_flows_to_log :
    (∀ env, (constructorLog env).KEY = (mkLLMService env).apiKey) ∧
    (∀ url name k1 k2, k1 ≠ "" → k2 ≠ "" → k1 ≠ k2 →
      constructorLog ⟨url, some k1, name⟩ ≠ constructorLog ⟨url, some k2, name⟩) := by
  constructor
  · intro env; rfl
  · intro url name k1 k2 h1 h2 h12 h
    apply h12
    have hKey : (constructorLog ⟨url, some k1, name⟩).KEY =
        (constructorLog ⟨url, some k2, name⟩).KEY := by rw [h]
    simpa [constructorLog, mkLLMService, orDefault, h1, h2] using hKey

/-- Claim C2: for each of the five generators, when the gateway call succeeds
but the returned text does not parse as JSON, the generator returns the
domain's deterministic fallback value inside a normal (non-error) result — the
parse failure never propagates to the caller. -/
theorem c2_parse_failure_yields_fallback :
    (∀ post parseJson skill level timePerWeek weeks response,
      callLLM post (curriculumPrompt skill level timePerWeek weeks) = .ok response →
      parseJson response = none →
      generateCurriculum post parseJson skill level timePerWeek weeks =
        .ok (.fallback (getFallbackCurriculum skill level weeks))) ∧
    (∀ post parseJson subtopicTitle skill level response,
      callLLM post (lessonPrompt subtopicTitle skill level) = .ok response →
      parseJson response = none →
      generateLesson post parseJson subtopicTitle skill level =
        .ok (.fallback (getFallbackLesson subtopicTitle))) ∧
    (∀ post parseJson lessonTitle content response,
      callLLM post (quizPrompt lessonTitle content) = .ok response →
      parseJson response = none →
      generateQuiz post parseJson lessonTitle content =
        .ok (.fallback (getFallbackQuiz lessonTitle))) ∧
    (∀ post parseJson topicTitle skill level response,
      callLLM post (resourcesPrompt topicTitle skill level) = .ok response →
      parseJson response = none →
      generateResources post parseJson topicTitle skill level =
        .ok (.fallback (getFallbackResources topicTitle))) ∧
    (∀ post parseJson moduleTitle skill level response,
      callLLM post (projectsPrompt moduleTitle skill level) = .ok response →
      parseJson response = none →
      generateProjects post parseJson moduleTitle skill level =
        .ok (.fallback (getFallbackProjects moduleTitle))) := by
  refine ⟨?_, ?_, ?_, ?_, ?_⟩
  · intro post parseJson skill level timePerWeek weeks response hc hp
    simp [generateCurriculum, hc, hp]
  · intro post parseJson subtopicTitle skill level response hc hp
    simp [generateLesson, hc, hp]
  · intro post parseJson lessonTitle content response hc hp
    simp [generateQuiz, hc, hp]
  · intro post parseJson topicTitle skill level response hc hp
    simp [generateResources, hc, hp]
  · intro post parseJson moduleTitle skill level response hc hp
    simp [generateProjects, hc, hp]

/-- Witness for C2: injecting non-JSON gateway text into the quiz generator
yields the quiz fallback. -/
theorem c2_parse_failure_yields_fallback_witness :
    generateQuiz (okPost "oops not json") parseNone "Loops" "some content" =
      .ok (.fallback (getFallbackQuiz "Loops")) :=
  c2_parse_failure_yields_fallback.2.2.1 (okPost "oops not json") parseNone
    "Loops" "some content" "oops not json" rfl rfl

/-- Claim C3: a gateway failure surfaces to the caller as the
`Failed to generate content` error (the spec's `GenerationUnavailable`) for
every generator, with no fallback invoked and no partial result; and this is
the only error path: every error a generator returns is exactly the error of
its `callLLM` invocation. -/
theorem c3_gateway_failure_surfaces :
    (∀ post prompt e, callLLM post prompt = .error e → e = failedToGenerate) ∧
    (∀ post parseJson skill level timePerWeek weeks e,
      post (curriculumPrompt skill level timePerWeek weeks) = .error e →
      generateCurriculum post parseJson skill level timePerWeek weeks =
        .error failedToGenerate) ∧
    (∀ post parseJson subtopicTitle skill level e,
      post (lessonPrompt subtopicTitle skill level) = .error e →
      generateLesson post parseJson subtopicTitle skill level =
        .error failedToGenerate) ∧
    (∀ post parseJson lessonTitle content e,
      post (quizPrompt lessonTitle content) = .error e →
      generateQuiz post parseJson lessonTitle content = .error failedToGenerate) ∧
    (∀ post parseJson topicTitle skill level e,
      post (resourcesPrompt topicTitle skill level) = .error e →
      generateResources post parseJson topicTitle skill level =
        .error failedToGenerate) ∧
    (∀ post parseJson moduleTitle skill level e,
      post (projectsPrompt moduleTitle skill level) = .error e →
      generateProjects post parseJson moduleTitle skill level =
        .error failedToGenerate) ∧
    (∀ post parseJson skill level timePerWeek weeks e,
      generateCurriculum post parseJson skill level timePerWeek weeks = .error e →
      callLLM post (curriculumPrompt skill level timePerWeek weeks) = .error e) ∧
    (∀ post parseJson subtopicTitle skill level e,
      generateLesson post parseJson subtopicTitle skill level = .error e →
      callLLM post (lessonPrompt subtopicTitle skill level) = .error e) ∧
    (∀ post parseJson lessonTitle content e,
      generateQuiz post parseJson lessonTitle content = .error e →
      callLLM post (quizPrompt lessonTitle content) = .error e) ∧
    (∀ post parseJson topicTitle skill level e,
      generateResources post parseJson topicTitle skill level = .error e →
      callLLM post (resourcesPrompt topicTitle skill level) = .error e) ∧
    (∀ post parseJson moduleTitle skill level e,
      generateProjects post parseJson moduleTitle skill level = .error e →
      callLLM post (projectsPrompt moduleTitle skill level) = .error e) := by
  have hmsg : ∀ post prompt e, callLLM post prompt = .error e → e = failedToGenerate := by
    intro post prompt e h
    unfold callLLM at h
    cases hp : post prompt with
    | error e2 =>
      simp only [hp, Except.error.injEq] at h
      exact h.symm
    | ok r =>
      simp only [hp] at h
      cases hr : r.choices with
      | nil =>
        simp only [hr, Except.error.injEq] at h
        exact h.symm
      | cons c cs =>
        simp only [hr] at h
        exact absurd h (by simp)
  refine ⟨hmsg, ?_, ?_, ?_, ?_, ?_, ?_, ?_, ?_, ?_, ?_⟩
  · intro post parseJson skill level timePerWeek weeks e h
    simp [generateCurriculum, callLLM, h]
  · intro post parseJson subtopicTitle skill level e h
    simp [generateLesson, callLLM, h]
  · intro post parseJson lessonTitle content e h
    simp [generateQuiz, callLLM, h]
  · intro post parseJson topicTitle skill level e h
    simp [generateResources, callLLM, h]
  · intro post parseJson moduleTitle skill level e h
    simp [generateProjects, callLLM, h]
  · intro post parseJson skill level timePerWeek weeks e h
    unfold generateCurriculum at h
    cases hc : callLLM post (curriculumPrompt skill level timePerWeek weeks) with
    | error e2 =>
      simp only [hc, Except.error.injEq] at h
      rw [h]
    | ok r =>
      simp only [hc] at h
      cases hp : parseJson r with
      | some j => simp only [hp] at h; exact absurd h (by simp)
      | none => simp only [hp] at h; exact absurd h (by simp)
  · intro post parseJson subtopicTitle skill level e h
    unfold generateLesson at h
    cases hc : callLLM post (lessonPrompt subtopicTitle skill level) with
    | error e2 =>
      simp only [hc, Except.error.injEq] at h
      rw [h]
    | ok r =>
      simp only [hc] at h
      cases hp : parseJson r with
      | some j => simp only [hp] at h; exact absurd h (by simp)
      | none => simp only [hp] at h; exact absurd h (by simp)
  · intro post parseJson lessonTitle content e h
    unfold generateQuiz at h
    cases hc : callLLM post (quizPrompt lessonTitle content) with
    | error e2 =>
      simp only [hc, Except.error.injEq] at h
      rw [h]
    | ok r =>
      simp only [hc] at h
      cases hp : parseJson r with
      | some j => simp only [hp] at h; exact absurd h (by simp)
      | none => simp only [hp] at h; exact absurd h (by simp)
  · intro post parseJson topicTitle skill level e h
    unfold generateResources at h
    cases hc : callLLM post (resourcesPrompt topicTitle skill level) with
    | error e2 =>
      simp only [hc, Except.error.injEq] at h
      rw [h]
    | ok r =>
      simp only [hc] at h
      cases hp : parseJson r with
      | some j => simp only [hp] at h; exact absurd h (by simp)
      | none => simp only [hp] at h; exact absurd h (by simp)
  · intro post parseJson moduleTitle skill level e h
    unfold generateProjects at h
    cases hc : callLLM post (projectsPrompt moduleTitle skill level) with
    | error e2 =>
      simp only [hc, Except.error.injEq] at h
      rw [h]
    | ok r =>
      simp only [hc] at h
      cases hp : parseJson r with
      | some j => simp only [hp] at h; exact absurd h (by simp)
      | none => simp only [hp] at h; exact absurd h (by simp)

/-- Witness for C3: a failing gateway makes the curriculum generator surface
the `Failed to generate content` error. -/
theorem c3_gateway_failure_surfaces_witness :
    generateCurriculum errPost parseNone "Python" "beginner" 5 12 =
      .error failedToGenerate :=
  c3_gateway_failure_surfaces.2.1 errPost parseNone "Python" "beginner" 5 12
    { message := "network error" } rfl

/-- Claim C4: for each of the five generators, when the gateway text parses as
JSON the generator returns the parsed value unchanged — any JSON value,
regardless of shape, is passed through with no validation and no fallback. -/
theorem c4_parse_success_passthrough :
    (∀ post parseJson skill level timePerWeek weeks response j,
      callLLM post (curriculumPrompt skill level timePerWeek weeks) = .ok response →
      parseJson response = some j →
      generateCurriculum post parseJson skill level timePerWeek weeks =
        .ok (.parsed j)) ∧
    (∀ post parseJson subtopicTitle skill level response j,
      callLLM post (lessonPrompt subtopicTitle skill level) = .ok response →
      parseJson response = some j →
      generateLesson post parseJson subtopicTitle skill level = .ok (.parsed j)) ∧
    (∀ post parseJson lessonTitle content response j,
      callLLM post (quizPrompt lessonTitle content) = .ok response →
      parseJson response = some j →
      generateQuiz post parseJson lessonTitle content = .ok (.parsed j)) ∧
    (∀ post parseJson topicTitle skill level response j,
      callLLM post (resourcesPrompt topicTitle skill level) = .ok response →
      parseJson response = some j →
      generateResources post parseJson topicTitle skill level = .ok (.parsed j)) ∧
    (∀ post parseJson moduleTitle skill level response j,
      callLLM post (projectsPrompt moduleTitle skill level) = .ok response →
      parseJson response = some j →
      generateProjects post parseJson moduleTitle skill level = .ok (.parsed j)) := by
  refine ⟨?_, ?_, ?_, ?_, ?_⟩
  · intro post parseJson skill level timePerWeek weeks response j hc hp
    simp [generateCurriculum, hc, hp]
  · intro post parseJson subtopicTitle skill level response j hc hp
    simp [generateLesson, hc, hp]
  · intro post parseJson lessonTitle content response j hc hp
    simp [generateQuiz, hc, hp]
  · intro post parseJson topicTitle skill level response j hc hp
    simp [generateResources, hc, hp]
  · intro post parseJson moduleTitle skill level response j hc hp
    simp [generateProjects, hc, hp]

/-- Witness for C4: a wrong-shape JSON value (a bare number) is passed through
by the quiz generator with no fallback. -/
theorem c4_parse_success_passthrough_witness :
    generateQuiz (okPost "42") (parseConst (Json.num 42)) "Loops" "some content" =
      .ok (.parsed (Json.num 42)) :=
  c4_parse_success_passthrough.2.2.1 (okPost "42") (parseConst (Json.num 42))
    "Loops" "some content" "42" (Json.num 42) rfl rfl

/-- Claim C7: each generator is a deterministic function of its parameters and
the gateway's reply to its prompt: two calls with identical parameters whose
gateways return identical replies yield identical results. -/
theorem c7_generators_deterministic :
    (∀ post1 post2 parseJson skill level timePerWeek weeks,
      post1 (curriculumPrompt skill level timePerWeek weeks) =
        post2 (curriculumPrompt skill level timePerWeek weeks) →
      generateCurriculum post1 parseJson skill level timePerWeek weeks =
        generateCurriculum post2 parseJson skill level timePerWeek weeks) ∧
    (∀ post1 post2 parseJson subtopicTitle skill level,
      post1 (lessonPrompt subtopicTitle skill level) =
        post2 (lessonPrompt subtopicTitle skill level) →
      generateLesson post1 parseJson subtopicTitle skill level =
        generateLesson post2 parseJson subtopicTitle skill level) ∧
    (∀ post1 post2 parseJson lessonTitle content,
      post1 (quizPrompt lessonTitle content) = post2 (quizPrompt lessonTitle content) →
      generateQuiz post1 parseJson lessonTitle content =
        generateQuiz post2 parseJson lessonTitle content) ∧
    (∀ post1 post2 parseJson topicTitle skill level,
      post1 (resourcesPrompt topicTitle skill level) =
        post2 (resourcesPrompt topicTitle skill level) →
      generateResources post1 parseJson topicTitle skill level =
        generateResources post2 parseJson topicTitle skill level) ∧
    (∀ post1 post2 parseJson moduleTitle skill level,
      post1 (projectsPrompt moduleTitle skill level) =
        post2 (projectsPrompt moduleTitle skill level) →
      generateProjects post1 parseJson moduleTitle skill level =
        generateProjects post2 parseJson moduleTitle skill level) := by
  refine ⟨?_, ?_, ?_, ?_, ?_⟩
  · intro post1 post2 parseJson skill level timePerWeek weeks h
    unfold generateCurriculum callLLM
    rw [h]
  · intro post1 post2 parseJson subtopicTitle skill level h
    unfold generateLesson callLLM
    rw [h]
  · intro post1 post2 parseJson lessonTitle content h
    unfold generateQuiz callLLM
    rw [h]
  · intro post1 post2 parseJson topicTitle skill level h
    unfold generateResources callLLM
    rw [h]
  · intro post1 post2 parseJson moduleTitle skill level h
    unfold generateProjects callLLM
    rw [h]

/-- Witness for C7: two gateway doubles returning the same raw text give the
same curriculum result. -/
theorem c7_generators_deterministic_witness :
    generateCurriculum (okPost "same text") parseNone "Python" "beginner" 5 12 =
      generateCurriculum (okPost "same text") parseNone "Python" "beginner" 5 12 :=
  c7_generators_deterministic.1 (okPost "same text") (okPost "same text") parseNone
    "Python" "beginner" 5 12 rfl

/-- Witness for the amended C8 at two concrete credentials. -/
theorem c8_amended_credential_flows_to_log_witness :
    constructorLog ⟨some "https://gw.host/v1", some "key-one", some "m1"⟩ ≠
      constructorLog ⟨some "https://gw.host/v1", some "key-two", some "m1"⟩ :=
  c8_amended_credential_flows_to_log.2 (some "https://gw.host/v1") (some "m1")
    "key-one" "key-two" (by decide) (by decide) (by decide)

end SkillFoundry
